import Mathlib

/-!
Verification of the supply-bot procurement core against its specification.

Numbers (prices, quantities, rates) are modelled as rationals; database
writes are modelled as explicit operation lists; statuses are the string
values actually written by the code.
-/

namespace SupplyBot

/-! Configuration defaults, from src/config/index.ts: the strategist
stockout threshold defaults to 14 days, the diplomat negotiation rounds
default to 3 and the price-improvement target to 0.05. -/

def stockoutThresholdDays : ℚ := 14

def maxNegotiationRounds : Nat := 3

def priceImprovementTarget : ℚ := 1/20

namespace Scout

/-- A stored SupplierProduct record, the fields read and written by the
scan loop in ScoutAgent.scanSupplier (src/agents/scout/index.ts). -/
structure SupplierProduct where
  supplierSku : String
  unitPrice : ℚ
  inStock : Bool
  stockLevel : Option ℚ
deriving DecidableEq, Repr

/-- One scraped catalog entry as produced by the scraping adapters. -/
structure ScrapedProduct where
  sku : String
  price : ℚ
  currency : String
  inStock : Bool
  stockLevel : Option ℚ
deriving DecidableEq, Repr

/-- A PriceHistory row as inserted by scanSupplier: the code inserts
the scraped price with source tag "scraped". -/
structure PriceHistoryRow where
  productSku : String
  price : ℚ
  currency : String
  source : String
deriving DecidableEq, Repr

/-- A database write performed by the scan loop, in program order. -/
inductive DbOp where
  | insertPriceHistory (row : PriceHistoryRow)
  | updateSupplierProduct (sku : String) (unitPrice : ℚ) (inStock : Bool)
      (stockLevel : Option ℚ)
deriving DecidableEq, Repr

/-- The body of the per-product scan loop: when the stored unit price and
the scraped price differ, first insert a PriceHistory row carrying the
scraped price, then update the SupplierProduct; when they agree, only the
update is issued. Translates lines 138 to 168 of scout/index.ts. -/
def scanItemOps (existing : SupplierProduct) (scraped : ScrapedProduct) : List DbOp :=
  (if existing.unitPrice ≠ scraped.price then
    [DbOp.insertPriceHistory
      ⟨scraped.sku, scraped.price, scraped.currency, "scraped"⟩]
  else []) ++
  [DbOp.updateSupplierProduct existing.supplierSku scraped.price
    scraped.inStock scraped.stockLevel]

/-- Lookup of the stored product matching a scraped sku, as done with
find over supplier.supplierProducts. -/
def findExisting (sps : List SupplierProduct) (sku : String) : Option SupplierProduct :=
  sps.find? (fun sp => sp.supplierSku == sku)

/-- The full scan loop over the scraped list, against the product list
loaded once at the start of the scan; unmatched skus produce no writes. -/
def scanSupplierOps (sps : List SupplierProduct) (scraped : List ScrapedProduct) : List DbOp :=
  scraped.foldr
    (fun s acc =>
      (match findExisting sps s.sku with
        | some ex => scanItemOps ex s
        | none => []) ++ acc)
    []

/-- The PriceHistory rows inserted by a list of database writes. -/
def historyInserts (ops : List DbOp) : List PriceHistoryRow :=
  ops.filterMap
    (fun op =>
      match op with
      | DbOp.insertPriceHistory row => some row
      | _ => none)

/-- Replay of the update writes onto a stored product record. -/
def applyOps (sp : SupplierProduct) (ops : List DbOp) : SupplierProduct :=
  ops.foldl
    (fun acc op =>
      match op with
      | DbOp.updateSupplierProduct sku price inSt lvl =>
          if sku == acc.supplierSku then
            { acc with unitPrice := price, inStock := inSt, stockLevel := lvl }
          else acc
      | _ => acc)
    sp

/-- Result of a targeted stock check. -/
structure StockCheckResult where
  inStock : Bool
  stockLevel : Option ℚ
deriving DecidableEq, Repr

/-- performStockCheck from scout/index.ts: when the supplier has an API
endpoint and the API call succeeds, its parsed result is returned;
otherwise the function returns the record with inStock true and no stock
level. The apiResult argument stands for the outcome of the network
call, none meaning the call failed or was unavailable. -/
def performStockCheck (hasApiEndpoint : Bool) (apiResult : Option StockCheckResult) :
    StockCheckResult :=
  match hasApiEndpoint, apiResult with
  | true, some r => r
  | _, _ => ⟨true, none⟩

/-- checkStock from scout/index.ts: loads the stored SupplierProduct,
performs the targeted stock check, and writes the checked flags back to
the stored record. Returns the updated record and the check result. -/
def checkStock (sp : SupplierProduct) (hasApiEndpoint : Bool)
    (apiResult : Option StockCheckResult) : SupplierProduct × StockCheckResult :=
  let r := performStockCheck hasApiEndpoint apiResult
  ({ sp with inStock := r.inStock, stockLevel := r.stockLevel }, r)

end Scout

namespace Strategist

/-- Urgency tiers of the inventory analysis, ascending severity encoded
by urgencySeverity below. -/
inductive Urgency where
  | critical
  | warning
  | ok
deriving DecidableEq, Repr

/-- Numeric severity, used to state monotonicity: ok below warning below
critical. -/
def urgencySeverity : Urgency → Nat
  | Urgency.ok => 0
  | Urgency.warning => 1
  | Urgency.critical => 2

/-- The urgency classification of StrategistAgent.analyzeInventory:
critical when daysOfStock is at most 3, else warning when daysOfStock is
at most the configured threshold, else warning when currentStock is at
or below the reorder point, else ok; first match wins. -/
def classifyUrgency (daysOfStock thresholdDays currentStock reorderPoint : ℚ) : Urgency :=
  if daysOfStock ≤ 3 then Urgency.critical
  else if daysOfStock ≤ thresholdDays then Urgency.warning
  else if currentStock ≤ reorderPoint then Urgency.warning
  else Urgency.ok

/-- Consumption figures computed by analyzeConsumption. -/
structure ConsumptionData where
  daily : ℚ
  weekly : ℚ
  trend : ℚ
deriving DecidableEq, Repr

/-- The stock fields of an InventoryItem read by the prediction helpers,
together with the consumption data derived from its recent stock
movements (analyzeConsumption output for the item). -/
structure InvItem where
  inventoryItemId : String
  productId : String
  currentStock : ℚ
  reservedStock : ℚ
  consumption : ConsumptionData
deriving DecidableEq, Repr

/-- simpleStockoutPrediction, days component: available stock over the
daily rate when the rate is positive, and the literal 365 otherwise. -/
def simpleStockoutDays (item : InvItem) : ℚ :=
  let availableStock := item.currentStock - item.reservedStock
  if item.consumption.daily > 0 then availableStock / item.consumption.daily
  else 365

/-- trendBasedPrediction, days component: the daily rate is scaled by
one plus half the trend before dividing, with the same 365 fallback. -/
def trendStockoutDays (item : InvItem) : ℚ :=
  let availableStock := item.currentStock - item.reservedStock
  let trendAdjustedDaily := item.consumption.daily * (1 + item.consumption.trend * (1/2))
  if trendAdjustedDaily > 0 then availableStock / trendAdjustedDaily
  else 365

/-- combinePredicitions, days component: the two day estimates are
averaged with equal weight and floored, as Math.floor does. -/
def combinedDays (item : InvItem) : ℤ :=
  ⌊(simpleStockoutDays item + trendStockoutDays item) / 2⌋

/-- combinePredicitions, confidence component: the average of the fixed
confidences 0.7 and 0.8 of the two models. -/
def combinedConfidence : ℚ := (7/10 + 8/10) / 2

/-- A StockoutPrediction database row as created by predictStockouts. -/
structure PredictionRow where
  inventoryItemId : String
  daysUntil : ℤ
  confidence : ℚ
  suggestedAction : String
deriving DecidableEq, Repr

/-- An entry of the prediction list returned by predictStockouts. -/
structure Prediction where
  productId : String
  currentStock : ℚ
  daysUntilStockout : ℤ
  confidence : ℚ
deriving DecidableEq, Repr

/-- The database row persisted for an included item: the suggested
action is expedite within 3 days, reorder otherwise. -/
def mkRow (item : InvItem) : PredictionRow :=
  ⟨item.inventoryItemId, combinedDays item, combinedConfidence,
    if combinedDays item ≤ 3 then "expedite" else "reorder"⟩

/-- The returned prediction entry for an included item. -/
def mkPrediction (item : InvItem) : Prediction :=
  ⟨item.productId, item.currentStock, combinedDays item, combinedConfidence⟩

/-- The inclusion test of predictStockouts: the combined floored day
count is at most twice the configured threshold. -/
def includeItem (thresholdDays : ℚ) (item : InvItem) : Bool :=
  decide ((combinedDays item : ℚ) ≤ thresholdDays * 2)

/-- Ordering of predictions used by the final sort, ascending days. -/
def predictionLE (a b : Prediction) : Prop :=
  a.daysUntilStockout ≤ b.daysUntilStockout

instance : DecidableRel predictionLE :=
  fun a b => inferInstanceAs (Decidable (a.daysUntilStockout ≤ b.daysUntilStockout))

instance : IsTotal Prediction predictionLE :=
  ⟨fun a b => Int.le_total a.daysUntilStockout b.daysUntilStockout⟩

instance : IsTrans Prediction predictionLE :=
  ⟨fun _ _ _ hab hbc => le_trans hab hbc⟩

/-- The per-item loop of StrategistAgent.predictStockouts: an item whose
combined prediction passes the threshold test contributes one database
row and one returned prediction, in item order; other items contribute
nothing. -/
def predictLoop (thresholdDays : ℚ) : List InvItem → List PredictionRow × List Prediction
  | [] => ([], [])
  | item :: rest =>
      let tail := predictLoop thresholdDays rest
      if includeItem thresholdDays item then
        (mkRow item :: tail.1, mkPrediction item :: tail.2)
      else tail

/-- predictStockouts: run the loop, then sort the returned list by days
until stockout ascending. Returns the persisted rows and the sorted
prediction list. -/
def predictStockouts (thresholdDays : ℚ) (items : List InvItem) :
    List PredictionRow × List Prediction :=
  let res := predictLoop thresholdDays items
  (res.1, List.insertionSort predictionLE res.2)

end Strategist

namespace Diplomat

/-- Message direction on the negotiation log. -/
inductive Direction where
  | outbound
  | inbound
deriving DecidableEq, Repr

/-- A NegotiationMessage as far as control flow reads it: only the
direction tag is consulted (to derive the round number); message text
never influences a decision. -/
structure NegMessage where
  direction : Direction
deriving DecidableEq, Repr

/-- One product line of the initial offer snapshot stored on the
negotiation record. -/
structure OfferProduct where
  sku : String
  quantity : ℚ
  currentPrice : ℚ
  targetPrice : ℚ
deriving DecidableEq, Repr

/-- A counter-offer as extracted by the response classifier: the code
looks a product sku up first under a products sub-map, then directly on
the counter-offer object, so both maps are modelled. -/
structure CounterOffer where
  productPrices : List (String × ℚ)
  topLevel : List (String × ℚ)
deriving DecidableEq, Repr

/-- A Negotiation record: its status string, the initial offer product
snapshot, the stored message log and the counter-offer history. There is
no stored round counter. -/
structure Negotiation where
  status : String
  initialOfferProducts : List OfferProduct
  messages : List NegMessage
  counterOffers : List CounterOffer
deriving DecidableEq, Repr

/-- The structured classification of a supplier reply; the parse-failure
fallback is accepted false, rejected false, no counter-offer. -/
structure Analysis where
  accepted : Bool
  rejected : Bool
  counterOffer : Option CounterOffer
deriving DecidableEq, Repr

/-- The fallback classification produced when the language-model reply
cannot be parsed as JSON. -/
def fallbackAnalysis : Analysis := ⟨false, false, none⟩

/-- Lookup of a sku in an extracted price map. -/
def lookupSku (m : List (String × ℚ)) (sku : String) : Option ℚ :=
  (m.find? (fun kv => kv.1 == sku)).map (fun kv => kv.2)

/-- JavaScript truthiness on a looked-up number: a missing key and the
number 0 are both falsy, so a chain of alternatives skips them. -/
def jsTruthy (v : Option ℚ) : Option ℚ :=
  match v with
  | some q => if q = 0 then none else some q
  | none => none

/-- The effective counter price for a product: the products sub-map
entry, else the top-level entry, else the current price, where a missing
or zero entry falls through to the next alternative. -/
def counterPriceFor (co : CounterOffer) (p : OfferProduct) : ℚ :=
  ((jsTruthy (lookupSku co.productPrices p.sku)).orElse
    (fun _ => jsTruthy (lookupSku co.topLevel p.sku))).getD p.currentPrice

/-- Total of the original offer: sum of current price times quantity. -/
def totalOriginal (ps : List OfferProduct) : ℚ :=
  (ps.map (fun p => p.currentPrice * p.quantity)).sum

/-- Total of the counter-offer: sum of effective counter price times
quantity. -/
def totalCounter (co : CounterOffer) (ps : List OfferProduct) : ℚ :=
  (ps.map (fun p => counterPriceFor co p * p.quantity)).sum

/-- DiplomatAgent.evaluateCounterOffer: the savings are the original
total minus the counter total; the counter-offer is acceptable when the
savings ratio reaches half the target improvement (ratio 0 when the
original total is not positive). Returns the acceptability flag and the
actual savings. -/
def evaluateCounterOffer (co : CounterOffer) (ps : List OfferProduct)
    (targetImprovement : ℚ) : Bool × ℚ :=
  let tOriginal := totalOriginal ps
  let tCounter := totalCounter co ps
  let actualSavings := tOriginal - tCounter
  let savingsPercent := if tOriginal > 0 then actualSavings / tOriginal else 0
  (decide (savingsPercent ≥ targetImprovement * (1/2)), actualSavings)

/-- The round number derived inside processNegotiationResponse: the
number of outbound messages on the stored log, plus one. -/
def negotiationRound (messages : List NegMessage) : Nat :=
  (messages.filter (fun m => m.direction == Direction.outbound)).length + 1

/-- Count of outbound messages on a stored log, the quantity the
specification describes the round as. -/
def outboundCount (messages : List NegMessage) : Nat :=
  (messages.filter (fun m => m.direction == Direction.outbound)).length

/-- Result of processing one supplier reply: the updated negotiation
record and the status string reported back in the task result data. -/
structure ProcResult where
  neg : Negotiation
  resultStatus : String
deriving DecidableEq, Repr

/-- The final-decision branch of processNegotiationResponse, reached
when no counter branch applies: an available counter-offer is evaluated
once more, an acceptable one marks the negotiation accepted, anything
else marks it expired and reports no agreement. -/
def finalDecision (targetImprovement : ℚ) (neg : Negotiation)
    (coOpt : Option CounterOffer) : ProcResult :=
  let dec :=
    match coOpt with
    | some co => evaluateCounterOffer co neg.initialOfferProducts targetImprovement
    | none => (false, 0)
  if dec.1 then ⟨{ neg with status := "accepted" }, "accepted"⟩
  else ⟨{ neg with status := "expired" }, "no_agreement"⟩

/-- DiplomatAgent.processNegotiationResponse as a state transformer.
The inbound reply is recorded first; the round is recomputed from the
log loaded before that insert. An accepted classification marks the
negotiation accepted; a rejected one marks it rejected; a counter-offer
with the round below the maximum is either accepted (when its evaluation
passes) or answered with a further outbound counter message, appending
the counter-offer either way and leaving the status untouched in the
counter case; every remaining case goes to the final decision. -/
def processNegotiationResponse (maxRounds : Nat) (targetImprovement : ℚ)
    (neg : Negotiation) (analysis : Analysis) : ProcResult :=
  let round := negotiationRound neg.messages
  let withInbound := { neg with messages := neg.messages ++ [⟨Direction.inbound⟩] }
  match analysis.accepted, analysis.rejected with
  | true, _ => ⟨{ withInbound with status := "accepted" }, "accepted"⟩
  | false, true => ⟨{ withInbound with status := "rejected" }, "rejected"⟩
  | false, false =>
      match analysis.counterOffer with
      | some co =>
          if round < maxRounds then
            let ev := evaluateCounterOffer co neg.initialOfferProducts targetImprovement
            if ev.1 then
              ⟨{ withInbound with
                  status := "accepted",
                  counterOffers := neg.counterOffers ++ [co] }, "accepted"⟩
            else
              ⟨{ withInbound with
                  messages := withInbound.messages ++ [⟨Direction.outbound⟩],
                  counterOffers := neg.counterOffers ++ [co] }, "counter_sent"⟩
          else finalDecision targetImprovement withInbound (some co)
      | none => finalDecision targetImprovement withInbound none

/-- The negotiation record created by DiplomatAgent.initiateNegotiation:
status in_progress, the product snapshot as initial offer, one outbound
message logged for the opening email, no counter-offers yet. -/
def initiateNegotiation (products : List OfferProduct) : Negotiation :=
  ⟨"in_progress", products, [⟨Direction.outbound⟩], []⟩

/-- The actual-savings formula as the specification words it: the sum
over products of (current price minus counter price) times quantity.
Stated separately so theorems can compare it with the totals the code
accumulates. -/
def specActualSavings (co : CounterOffer) (ps : List OfferProduct) : ℚ :=
  (ps.map (fun p => (p.currentPrice - counterPriceFor co p) * p.quantity)).sum

end Diplomat

/-! Theorems. Each claim of the specification is settled below; helper
lemmas shared between claims come first. -/

/-- Splitting a sum of per-product differences into the two totals the
code accumulates. -/
theorem specActualSavings_eq (co : Diplomat.CounterOffer) (ps : List Diplomat.OfferProduct) :
    Diplomat.specActualSavings co ps =
      Diplomat.totalOriginal ps - Diplomat.totalCounter co ps := by
  induction ps with
  | nil => simp [Diplomat.specActualSavings, Diplomat.totalOriginal, Diplomat.totalCounter]
  | cons p rest ih =>
      simp only [Diplomat.specActualSavings, Diplomat.totalOriginal,
        Diplomat.totalCounter, List.map_cons, List.sum_cons] at *
      rw [ih]
      ring

/-- C5: the claim states the simple projection returns Infinity at zero
daily rate; the code returns the finite literal 365 there, so the value
at stock 100, reserved 0 and rate 0 is 365 and, seen in the value domain
extended with Infinity, is not Infinity. -/
theorem c5_counterexample :
    Strategist.simpleStockoutDays ⟨"inv-1", "prod-1", 100, 0, ⟨0, 0, 0⟩⟩ = 365 ∧
    ((Strategist.simpleStockoutDays ⟨"inv-1", "prod-1", 100, 0, ⟨0, 0, 0⟩⟩ :
        WithTop ℚ)) ≠ ⊤ := by
  refine ⟨by decide, ?_⟩
  exact WithTop.coe_ne_top

/-- C5 (amended): the simple average-rate projection returns available
stock (current minus reserved) divided by the daily rate when the rate
is positive, and the finite fallback 365 (not Infinity) otherwise. -/
theorem c5_simple_projection (item : Strategist.InvItem) :
    (item.consumption.daily > 0 →
      Strategist.simpleStockoutDays item =
        (item.currentStock - item.reservedStock) / item.consumption.daily) ∧
    (¬ item.consumption.daily > 0 → Strategist.simpleStockoutDays item = 365) := by
  constructor <;> intro h <;> simp [Strategist.simpleStockoutDays, h]

/-- C5 witness: at stock 100, reserved 0 and daily rate 10 the
projection evaluates to 10, by the amended theorem. -/
theorem c5_witness :
    (0 : ℚ) < 10 ∧
    Strategist.simpleStockoutDays ⟨"inv-1", "prod-1", 100, 0, ⟨10, 70, 0⟩⟩ = 10 := by
  refine ⟨by norm_num, ?_⟩
  have h := (c5_simple_projection ⟨"inv-1", "prod-1", 100, 0, ⟨10, 70, 0⟩⟩).1 (by norm_num)
  rw [h]
  norm_num

/-- C6: the claim states the inserted PriceHistory row carries the
previous price; at stored price 100 and scraped price 120 the scan
inserts exactly one row and its price is 120, not the previous 100. -/
theorem c6_counterexample :
    Scout.historyInserts
        (Scout.scanItemOps ⟨"SKU-1", 100, true, none⟩
          ⟨"SKU-1", 120, "USD", true, none⟩) =
      [⟨"SKU-1", 120, "USD", "scraped"⟩] ∧
    ∀ row ∈ Scout.historyInserts
        (Scout.scanItemOps ⟨"SKU-1", 100, true, none⟩
          ⟨"SKU-1", 120, "USD", true, none⟩),
      row.price ≠ 100 := by
  decide

/-- C6 (amended): on a detected price change the scan issues the
PriceHistory insert strictly before the SupplierProduct update, the
inserted row carries the new scraped price, and replaying the writes
leaves the stored unit price equal to the scraped price. -/
theorem c6_scan_price_change (ex : Scout.SupplierProduct) (s : Scout.ScrapedProduct)
    (h : ex.unitPrice ≠ s.price) :
    Scout.scanItemOps ex s =
      [Scout.DbOp.insertPriceHistory ⟨s.sku, s.price, s.currency, "scraped"⟩,
        Scout.DbOp.updateSupplierProduct ex.supplierSku s.price s.inStock s.stockLevel] ∧
    (Scout.applyOps ex (Scout.scanItemOps ex s)).unitPrice = s.price := by
  constructor
  · simp [Scout.scanItemOps, h]
  · simp [Scout.scanItemOps, Scout.applyOps, h]

/-- C6 witness: the amended theorem at stored price 100 and scraped
price 120. -/
theorem c6_witness :
    (100 : ℚ) ≠ 120 ∧
    (Scout.applyOps ⟨"SKU-1", 100, true, none⟩
        (Scout.scanItemOps ⟨"SKU-1", 100, true, none⟩
          ⟨"SKU-1", 120, "USD", true, none⟩)).unitPrice = 120 := by
  refine ⟨by norm_num, ?_⟩
  exact (c6_scan_price_change ⟨"SKU-1", 100, true, none⟩
    ⟨"SKU-1", 120, "USD", true, none⟩ (by norm_num)).2

/-- C7: when every scraped item that matches a stored product carries an
unchanged price, the whole scan inserts no PriceHistory row. -/
theorem c7_unchanged_no_history (sps : List Scout.SupplierProduct)
    (scraped : List Scout.ScrapedProduct)
    (h : ∀ s ∈ scraped, ∀ ex, Scout.findExisting sps s.sku = some ex →
      ex.unitPrice = s.price) :
    Scout.historyInserts (Scout.scanSupplierOps sps scraped) = [] := by
  induction scraped with
  | nil => simp [Scout.scanSupplierOps, Scout.historyInserts]
  | cons s rest ih =>
      have hs := h s (List.mem_cons_self s rest)
      have hrest : ∀ s' ∈ rest, ∀ ex, Scout.findExisting sps s'.sku = some ex →
          ex.unitPrice = s'.price :=
        fun s' hmem => h s' (List.mem_cons_of_mem s hmem)
      simp only [Scout.scanSupplierOps, List.foldr_cons] at *
      rw [show Scout.historyInserts = List.filterMap _ from rfl] at *
      rw [List.filterMap_append]
      rw [ih hrest, List.append_nil]
      cases hfind : Scout.findExisting sps s.sku with
      | none => simp
      | some ex =>
          have hp := hs ex hfind
          simp [Scout.scanItemOps, hp]

/-- C7 witness: a one-product catalog re-scanned at the identical price
produces an empty history insert list. -/
theorem c7_witness :
    (∀ s ∈ [(⟨"SKU-1", 100, "USD", true, none⟩ : Scout.ScrapedProduct)],
      ∀ ex, Scout.findExisting [⟨"SKU-1", 100, true, none⟩] s.sku = some ex →
        ex.unitPrice = s.price) ∧
    Scout.historyInserts
      (Scout.scanSupplierOps [⟨"SKU-1", 100, true, none⟩]
        [⟨"SKU-1", 100, "USD", true, none⟩]) = [] := by
  refine ⟨by decide, ?_⟩
  exact c7_unchanged_no_history _ _ (by decide)

/-- C8: the urgency classification is monotone in days of stock: with
the threshold, current stock and reorder point fixed, a smaller
daysOfStock never yields a strictly less severe classification. -/
theorem c8_urgency_monotone (t cs rp d d' : ℚ) (h : d' ≤ d) :
    Strategist.urgencySeverity (Strategist.classifyUrgency d t cs rp) ≤
      Strategist.urgencySeverity (Strategist.classifyUrgency d' t cs rp) := by
  unfold Strategist.classifyUrgency
  split_ifs <;> simp [Strategist.urgencySeverity] <;> linarith

/-- C8 witness: dropping from 10 days to 2 days of stock moves the
classification from warning severity to critical severity. -/
theorem c8_witness :
    (2 : ℚ) ≤ 10 ∧
    Strategist.urgencySeverity (Strategist.classifyUrgency 10 14 100 5) ≤
      Strategist.urgencySeverity (Strategist.classifyUrgency 2 14 100 5) :=
  ⟨by norm_num, c8_urgency_monotone 14 100 5 10 2 (by norm_num)⟩

/-- C9: the single-SKU stock check claim is right and the code is wrong:
with no API endpoint the fallback returns the fixed constant record
inStock true with no stock level, directly under the source comment
saying it defaults to the last known status, and checkStock then
overwrites the stored last-known state (here inStock false, level 0)
with that constant. -/
theorem c9_stock_check_fallback_constant :
    Scout.performStockCheck false none = ⟨true, none⟩ ∧
    (Scout.checkStock ⟨"SKU-1", 100, false, some 0⟩ false none).1 =
      ⟨"SKU-1", 100, true, none⟩ := by
  decide

/-- C1: the claim states an unparseable classification leaves the
negotiation in_progress; on a negotiation in round 2 of 3 the fallback
classification instead drives the final-decision branch and the status
becomes expired. -/
theorem c1_counterexample :
    (Diplomat.processNegotiationResponse 3 (1/20)
        ⟨"in_progress", [⟨"A", 10, 100, 95⟩], [⟨Diplomat.Direction.outbound⟩], []⟩
        Diplomat.fallbackAnalysis).neg.status = "expired" ∧
    (Diplomat.processNegotiationResponse 3 (1/20)
        ⟨"in_progress", [⟨"A", 10, 100, 95⟩], [⟨Diplomat.Direction.outbound⟩], []⟩
        Diplomat.fallbackAnalysis).neg.status ≠ "in_progress" := by
  decide

/-- C1 (amended): on every negotiation and configuration, the fallback
classification (accepted false, rejected false, no counter-offer) makes
processNegotiationResponse take the final-decision branch with no
counter-offer to evaluate, so the negotiation is marked expired and no
agreement is reported, regardless of the current round. -/
theorem c1_unparseable_expires (maxRounds : Nat) (target : ℚ)
    (neg : Diplomat.Negotiation) :
    (Diplomat.processNegotiationResponse maxRounds target neg
        Diplomat.fallbackAnalysis).neg.status = "expired" ∧
    (Diplomat.processNegotiationResponse maxRounds target neg
        Diplomat.fallbackAnalysis).resultStatus = "no_agreement" := by
  simp [Diplomat.processNegotiationResponse, Diplomat.fallbackAnalysis,
    Diplomat.finalDecision]

/-- C3: the claim states no operation moves a negotiation out of a
terminal state; processNegotiationResponse does not inspect the current
status, so processing a rejecting reply on an already accepted
negotiation rewrites the status to rejected. -/
theorem c3_counterexample :
    (Diplomat.processNegotiationResponse 3 (1/20)
        ⟨"accepted", [⟨"A", 10, 100, 95⟩], [⟨Diplomat.Direction.outbound⟩], []⟩
        ⟨false, true, none⟩).neg.status = "rejected" ∧
    ("accepted" : String) ≠ "rejected" := by
  decide

/-- C3 (amended): initiateNegotiation creates the record with status
in_progress, and every status write performed by
processNegotiationResponse sets one of the three terminal values
accepted, rejected or expired (otherwise the status is left untouched);
but no current-status guard exists, so a terminal status may be
overwritten by another terminal status. -/
theorem c3_status_writes_terminal (maxRounds : Nat) (target : ℚ)
    (products : List Diplomat.OfferProduct) (neg : Diplomat.Negotiation)
    (analysis : Diplomat.Analysis) :
    (Diplomat.initiateNegotiation products).status = "in_progress" ∧
    ((Diplomat.processNegotiationResponse maxRounds target neg analysis).neg.status
        = neg.status ∨
      (Diplomat.processNegotiationResponse maxRounds target neg analysis).neg.status
        = "accepted" ∨
      (Diplomat.processNegotiationResponse maxRounds target neg analysis).neg.status
        = "rejected" ∨
      (Diplomat.processNegotiationResponse maxRounds target neg analysis).neg.status
        = "expired") := by
  refine ⟨rfl, ?_⟩
  rcases analysis with ⟨acc, rej, coOpt⟩
  cases acc <;> cases rej <;> cases coOpt
  all_goals simp [Diplomat.processNegotiationResponse, Diplomat.finalDecision]
  all_goals split_ifs
  all_goals simp

/-- C4: the claim states the round used equals the count of outbound
messages on the stored log; on a log holding exactly one outbound
message the code derives round 2, not 1. -/
theorem c4_counterexample :
    Diplomat.negotiationRound [⟨Diplomat.Direction.outbound⟩] = 2 ∧
    Diplomat.outboundCount [⟨Diplomat.Direction.outbound⟩] = 1 := by
  decide

/-- C4 (amended): the round is recomputed from the stored message log as
the count of outbound messages plus one, with no stored counter; in
particular an unacceptable counter-offer triggers a further counter
email exactly when that derived value is below the maximum round
count. -/
theorem c4_round_from_log (maxRounds : Nat) (target : ℚ)
    (neg : Diplomat.Negotiation) (co : Diplomat.CounterOffer)
    (hua : (Diplomat.evaluateCounterOffer co neg.initialOfferProducts target).1 = false) :
    Diplomat.negotiationRound neg.messages = Diplomat.outboundCount neg.messages + 1 ∧
    ((Diplomat.processNegotiationResponse maxRounds target neg
        ⟨false, false, some co⟩).resultStatus = "counter_sent" ↔
      Diplomat.outboundCount neg.messages + 1 < maxRounds) := by
  refine ⟨rfl, ?_⟩
  by_cases hlt : Diplomat.negotiationRound neg.messages < maxRounds
  · simp only [Diplomat.processNegotiationResponse, if_pos hlt, hua]
    simpa [Diplomat.negotiationRound, Diplomat.outboundCount] using hlt
  · simp only [Diplomat.processNegotiationResponse, if_neg hlt,
      Diplomat.finalDecision, hua]
    constructor
    · intro hcontra
      simp at hcontra
    · intro hcontra
      exact absurd hcontra (by simpa [Diplomat.negotiationRound,
        Diplomat.outboundCount] using hlt)

/-- C4 witness: with one outbound message logged and three maximum
rounds, an unacceptable counter-offer (counter price equal to the
current price) yields a further counter email, since the derived round
1 + 1 is below 3. -/
theorem c4_witness :
    (Diplomat.evaluateCounterOffer ⟨[], [("A", 100)]⟩ [⟨"A", 10, 100, 95⟩] (1/20)).1
        = false ∧
    ((Diplomat.processNegotiationResponse 3 (1/20)
        ⟨"in_progress", [⟨"A", 10, 100, 95⟩], [⟨Diplomat.Direction.outbound⟩], []⟩
        ⟨false, false, some ⟨[], [("A", 100)]⟩⟩).resultStatus = "counter_sent" ↔
      Diplomat.outboundCount [⟨Diplomat.Direction.outbound⟩] + 1 < 3) := by
  have hua : (Diplomat.evaluateCounterOffer ⟨[], [("A", 100)]⟩
      [⟨"A", 10, 100, 95⟩] (1/20)).1 = false := by
    simp only [Diplomat.evaluateCounterOffer, Diplomat.totalOriginal,
      Diplomat.totalCounter, Diplomat.counterPriceFor, Diplomat.lookupSku,
      Diplomat.jsTruthy, List.find?, List.map_cons, List.map_nil, List.sum_cons,
      List.sum_nil, decide_eq_false_iff_not]
    norm_num
  refine ⟨hua, ?_⟩
  exact (c4_round_from_log 3 (1/20)
    ⟨"in_progress", [⟨"A", 10, 100, 95⟩], [⟨Diplomat.Direction.outbound⟩], []⟩
    ⟨[], [("A", 100)]⟩ hua).2

/-- C2: processing a counter-offer under the default configuration
(target improvement five percent, three rounds): when the actual
savings, in the sense of the specification, reach one fortieth
(2.5 percent) of the original total, the negotiation is accepted; when
they fall short, a further outbound counter message is recorded and the
negotiation stays in_progress while the derived round is below the
maximum, and the negotiation expires otherwise; no case drops the
counter-offer silently. -/
theorem c2_counter_offer_disposition (neg : Diplomat.Negotiation)
    (co : Diplomat.CounterOffer)
    (hstatus : neg.status = "in_progress")
    (hpos : 0 < Diplomat.totalOriginal neg.initialOfferProducts) :
    (Diplomat.specActualSavings co neg.initialOfferProducts /
          Diplomat.totalOriginal neg.initialOfferProducts ≥ 1/40 →
      (Diplomat.processNegotiationResponse maxNegotiationRounds
          priceImprovementTarget neg ⟨false, false, some co⟩).neg.status
        = "accepted") ∧
    (Diplomat.specActualSavings co neg.initialOfferProducts /
          Diplomat.totalOriginal neg.initialOfferProducts < 1/40 →
      (Diplomat.negotiationRound neg.messages < maxNegotiationRounds →
        (Diplomat.processNegotiationResponse maxNegotiationRounds
            priceImprovementTarget neg ⟨false, false, some co⟩).resultStatus
          = "counter_sent" ∧
        (Diplomat.processNegotiationResponse maxNegotiationRounds
            priceImprovementTarget neg ⟨false, false, some co⟩).neg.status
          = "in_progress" ∧
        Diplomat.outboundCount
            (Diplomat.processNegotiationResponse maxNegotiationRounds
              priceImprovementTarget neg ⟨false, false, some co⟩).neg.messages
          = Diplomat.outboundCount neg.messages + 1) ∧
      (¬ Diplomat.negotiationRound neg.messages < maxNegotiationRounds →
        (Diplomat.processNegotiationResponse maxNegotiationRounds
            priceImprovementTarget neg ⟨false, false, some co⟩).neg.status
          = "expired")) := by
  have hev : (Diplomat.evaluateCounterOffer co neg.initialOfferProducts
      priceImprovementTarget).1 = true ↔
      Diplomat.specActualSavings co neg.initialOfferProducts /
        Diplomat.totalOriginal neg.initialOfferProducts ≥ 1/40 := by
    simp only [Diplomat.evaluateCounterOffer, priceImprovementTarget,
      if_pos hpos, decide_eq_true_eq]
    rw [specActualSavings_eq]
    norm_num
  constructor
  · intro hge
    have hevt : (Diplomat.evaluateCounterOffer co neg.initialOfferProducts
        priceImprovementTarget).1 = true := hev.mpr hge
    by_cases hlt : Diplomat.negotiationRound neg.messages < maxNegotiationRounds
    · simp [Diplomat.processNegotiationResponse, hlt, hevt]
    · simp [Diplomat.processNegotiationResponse, hlt, Diplomat.finalDecision, hevt]
  · intro hsmall
    have hevf : (Diplomat.evaluateCounterOffer co neg.initialOfferProducts
        priceImprovementTarget).1 = false := by
      rcases Bool.eq_false_or_eq_true (Diplomat.evaluateCounterOffer co
        neg.initialOfferProducts priceImprovementTarget).1 with ht | hf
      · exact absurd (hev.mp ht) (not_le.mpr hsmall)
      · exact hf
    constructor
    · intro hlt
      refine ⟨?_, ?_, ?_⟩
      · simp [Diplomat.processNegotiationResponse, hlt, hevf]
      · simpa [Diplomat.processNegotiationResponse, hlt, hevf] using hstatus
      · simp [Diplomat.processNegotiationResponse, hlt, hevf,
          Diplomat.outboundCount, List.filter_append]
    · intro hnlt
      simp [Diplomat.processNegotiationResponse, hnlt, Diplomat.finalDecision, hevf]

/-- C2 witness: one product at current price 100, quantity 10, and a
counter price of 95 yields savings 50 out of 1000, a five percent ratio
above the 2.5 percent bar, so the negotiation is accepted. -/
theorem c2_witness :
    (0 : ℚ) < Diplomat.totalOriginal [⟨"A", 10, 100, 95⟩] ∧
    Diplomat.specActualSavings ⟨[], [("A", 95)]⟩ [⟨"A", 10, 100, 95⟩] /
        Diplomat.totalOriginal [⟨"A", 10, 100, 95⟩] ≥ 1/40 ∧
    (Diplomat.processNegotiationResponse maxNegotiationRounds
        priceImprovementTarget
        ⟨"in_progress", [⟨"A", 10, 100, 95⟩], [⟨Diplomat.Direction.outbound⟩], []⟩
        ⟨false, false, some ⟨[], [("A", 95)]⟩⟩).neg.status = "accepted" := by
  have hpos : (0 : ℚ) < Diplomat.totalOriginal [⟨"A", 10, 100, 95⟩] := by
    simp only [Diplomat.totalOriginal, List.map_cons, List.map_nil, List.sum_cons,
      List.sum_nil]
    norm_num
  have hge : Diplomat.specActualSavings ⟨[], [("A", 95)]⟩ [⟨"A", 10, 100, 95⟩] /
      Diplomat.totalOriginal [⟨"A", 10, 100, 95⟩] ≥ 1/40 := by
    simp only [Diplomat.specActualSavings, Diplomat.totalOriginal,
      Diplomat.counterPriceFor, Diplomat.lookupSku, Diplomat.jsTruthy, List.find?,
      List.map_cons, List.map_nil, List.sum_cons, List.sum_nil]
    norm_num
  exact ⟨hpos, hge,
    (c2_counter_offer_disposition
      ⟨"in_progress", [⟨"A", 10, 100, 95⟩], [⟨Diplomat.Direction.outbound⟩], []⟩
      ⟨[], [("A", 95)]⟩ rfl hpos).1 hge⟩

/-- Unfolding of the prediction loop: the persisted rows and the raw
prediction list are exactly the included items, in item order. -/
theorem predictLoop_eq (t : ℚ) (items : List Strategist.InvItem) :
    Strategist.predictLoop t items =
      ((items.filter (Strategist.includeItem t)).map Strategist.mkRow,
        (items.filter (Strategist.includeItem t)).map Strategist.mkPrediction) := by
  induction items with
  | nil => rfl
  | cons it rest ih =>
      simp only [Strategist.predictLoop, ih, List.filter_cons]
      by_cases h : Strategist.includeItem t it <;> simp [h]

/-- C10: predict_stockouts persists a row and returns a prediction for
exactly the items whose combined floored day estimate is at most twice
the configured threshold (28 days at the default threshold 14); all
other items are omitted from both the database writes and the result,
and the returned list is sorted ascending by days until stockout. -/
theorem c10_predict_stockouts (t : ℚ) (items : List Strategist.InvItem) :
    (Strategist.predictStockouts t items).1 =
      (items.filter (Strategist.includeItem t)).map Strategist.mkRow ∧
    (∀ p, p ∈ (Strategist.predictStockouts t items).2 ↔
      ∃ it ∈ items, Strategist.includeItem t it = true ∧
        p = Strategist.mkPrediction it) ∧
    List.Sorted Strategist.predictionLE (Strategist.predictStockouts t items).2 ∧
    stockoutThresholdDays * 2 = 28 := by
  refine ⟨?_, ?_, ?_, by norm_num [stockoutThresholdDays]⟩
  · simp [Strategist.predictStockouts, predictLoop_eq]
  · intro p
    have hperm := List.perm_insertionSort Strategist.predictionLE
      ((items.filter (Strategist.includeItem t)).map Strategist.mkPrediction)
    simp only [Strategist.predictStockouts, predictLoop_eq]
    rw [hperm.mem_iff]
    simp only [List.mem_map, List.mem_filter]
    constructor
    · rintro ⟨it, ⟨hmem, hinc⟩, hp⟩
      exact ⟨it, hmem, hinc, hp.symm⟩
    · rintro ⟨it, hmem, hinc, hp⟩
      exact ⟨it, ⟨hmem, hinc⟩, hp.symm⟩
  · simp only [Strategist.predictStockouts, predictLoop_eq]
    exact List.sorted_insertionSort Strategist.predictionLE _

end SupplyBot
